import Mathlib

/-!
Verification development for the user-namespace remapped-snapshot
provisioning subsystem (`snapshotter_opts_unix.go` of containerd).

The Go source is shallowly embedded: the snapshot store is an explicit
state-passing interface (the store is an external collaborator, so the
orchestrator is generic over it and a concrete reference state machine is
provided); the orchestrator `withRemappedSnapshotBase` is a pure function
from the store state and container record to a result, the updated
container, the updated store state and the list of store operations it
performed; the ownership-remap walk is a fold over the entries of a
modelled filesystem.
-/

deriving instance DecidableEq for Except

namespace Containerd

/-- Go `error` values as seen through `errdefs`: the orchestrator only ever
distinguishes "not found" from everything else (`errdefs.IsNotFound`). -/
inductive GoErr where
  | notFound (msg : String)
  | other (msg : String)
deriving DecidableEq

/-- `errdefs.IsNotFound`. -/
def GoErr.isNotFound : GoErr → Bool
  | .notFound _ => true
  | .other _ => false

/-- `idtools.IDMap`: one range entry (container-side start, host-side start,
length), integer fields as in the Go struct. -/
structure IDMap where
  containerID : Int
  hostID : Int
  size : Int
deriving DecidableEq

/-- `idtools.IdentityMapping`: ordered UID and GID range lists. -/
structure IdentityMapping where
  UIDMaps : List IDMap
  GIDMaps : List IDMap
deriving DecidableEq

/-- `idtools.Identity`: a (UID, GID) pair. -/
structure Identity where
  UID : Int
  GID : Int
deriving DecidableEq

/-- Modelled from the spec: the per-axis lookup of the Ownership Translator
(`idtools` is part of the containerd repository but its source is not under
`src/`). A match requires the value to fall within
`[containerStart, containerStart + length)` of some range entry, ranges are
tried in order (first-matching-range semantics), and the result is
`hostStart + (value - containerStart)`; `none` when no range covers the
value. -/
def toHostID (maps : List IDMap) (v : Int) : Option Int :=
  match maps with
  | [] => none
  | r :: rest =>
      if r.containerID ≤ v ∧ v < r.containerID + r.size then
        some (r.hostID + (v - r.containerID))
      else toHostID rest v

/-- Modelled from the spec: `idtools.IdentityMapping.ToHost`, the Ownership
Translator. The UID is resolved against the UID range list and the GID
against the GID range list independently; it fails with a "no mapping"
condition if either value is outside all configured ranges. -/
def IdentityMapping.ToHost (m : IdentityMapping) (p : Identity) : Except GoErr Identity :=
  match toHostID m.UIDMaps p.UID, toHostID m.GIDMaps p.GID with
  | some u, some g => .ok ⟨u, g⟩
  | _, _ => .error (.other "no mapping for pair")

/-- Modelled from the spec: `idtools.IdentityMapping.RootPair`, "the
host-side UID/GID that a mapping assigns to container-side (0,0)" under the
translation of `toHostID`. The spec does not fix the value when no range
covers 0; the container-side value itself (0) is used as the default. -/
def IdentityMapping.RootPair (m : IdentityMapping) : Identity :=
  ⟨(toHostID m.UIDMaps 0).getD 0, (toHostID m.GIDMaps 0).getD 0⟩

/-- The store operations the orchestrator can request, recorded as a call
log so that theorems can speak about which operations a run performed. -/
inductive StoreOp where
  | stat (key : String)
  | prepare (key parent : String)
  | view (key parent : String)
  | commit (name key : String)
  | remove (key : String)
deriving DecidableEq

/-- The snapshot store collaborator (`snapshots.Snapshotter` restricted to
the five operations the orchestrator uses), as an explicit state-passing
interface over an abstract state type `σ`. Mount lists returned by
`prepare`/`view` are not modelled: the orchestrator only hands them to the
remap walk, whose outcome is a separate input of the embedding. -/
structure Store (σ : Type) where
  stat : σ → String → Except GoErr Unit × σ
  prepare : σ → String → String → Except GoErr Unit × σ
  view : σ → String → String → Except GoErr Unit × σ
  commit : σ → String → String → Except GoErr Unit × σ
  remove : σ → String → Except GoErr Unit × σ

/-- Lifecycle state of a snapshot in the reference store model. -/
inductive SnapKind where
  | active
  | committed
  | view
deriving DecidableEq

/-- A snapshot record in the reference store model: lifecycle state and
parent key. -/
structure SnapInfo where
  kind : SnapKind
  parent : String
deriving DecidableEq

/-- Reference store state: an association list from snapshot key to record
(first binding wins). -/
abbrev StoreState : Type := List (String × SnapInfo)

/-- Key lookup in the reference store state. -/
def lookupSnap : StoreState → String → Option SnapInfo
  | [], _ => none
  | (k, v) :: rest, q => if q = k then some v else lookupSnap rest q

/-- Binding insertion in the reference store state. -/
def insertSnap (s : StoreState) (k : String) (v : SnapInfo) : StoreState :=
  (k, v) :: s

/-- Key removal in the reference store state. -/
def removeSnap : StoreState → String → StoreState
  | [], _ => []
  | (a, b) :: xs, k => if a = k then removeSnap xs k else (a, b) :: removeSnap xs k

/-- Reference `Stat`: succeeds iff the key exists; otherwise not-found. -/
def statImpl (s : StoreState) (k : String) : Except GoErr Unit × StoreState :=
  match lookupSnap s k with
  | some _ => (.ok (), s)
  | none => (.error (.notFound ("snapshot " ++ k ++ ": not found")), s)

/-- Reference `Prepare`: fails if the key already exists (already-exists,
not a not-found) or the parent is missing (not-found) or not committed;
otherwise records a new active snapshot. -/
def prepareImpl (s : StoreState) (k parent : String) : Except GoErr Unit × StoreState :=
  if (lookupSnap s k).isSome then (.error (.other ("snapshot " ++ k ++ ": already exists")), s)
  else
    match lookupSnap s parent with
    | none => (.error (.notFound ("parent " ++ parent ++ ": not found")), s)
    | some info =>
        if info.kind = SnapKind.committed then (.ok (), insertSnap s k ⟨SnapKind.active, parent⟩)
        else (.error (.other ("parent " ++ parent ++ ": not committed")), s)

/-- Reference `View`: like `prepareImpl` but records a read-only view. -/
def viewImpl (s : StoreState) (k parent : String) : Except GoErr Unit × StoreState :=
  if (lookupSnap s k).isSome then (.error (.other ("snapshot " ++ k ++ ": already exists")), s)
  else
    match lookupSnap s parent with
    | none => (.error (.notFound ("parent " ++ parent ++ ": not found")), s)
    | some info =>
        if info.kind = SnapKind.committed then (.ok (), insertSnap s k ⟨SnapKind.view, parent⟩)
        else (.error (.other ("parent " ++ parent ++ ": not committed")), s)

/-- Reference `Commit`: the source key must be an active snapshot and the
target name must be free; the active snapshot is consumed and a committed
snapshot appears under the target name. -/
def commitImpl (s : StoreState) (name key : String) : Except GoErr Unit × StoreState :=
  match lookupSnap s key with
  | none => (.error (.notFound ("snapshot " ++ key ++ ": not found")), s)
  | some info =>
      if info.kind = SnapKind.active then
        if (lookupSnap s name).isSome then
          (.error (.other ("snapshot " ++ name ++ ": already exists")), s)
        else (.ok (), insertSnap (removeSnap s key) name ⟨SnapKind.committed, info.parent⟩)
      else (.error (.other ("snapshot " ++ key ++ ": not active")), s)

/-- Reference `Remove`: not-found when the key is absent, else deletes it. -/
def removeImpl (s : StoreState) (k : String) : Except GoErr Unit × StoreState :=
  match lookupSnap s k with
  | none => (.error (.notFound ("snapshot " ++ k ++ ": not found")), s)
  | some _ => (.ok (), removeSnap s k)

/-- The reference snapshot store. -/
def concreteStore : Store StoreState :=
  ⟨statImpl, prepareImpl, viewImpl, commitImpl, removeImpl⟩

/-- The base image collaborator. Image metadata resolution (`RootFS` plus
`identity.ChainID`) is out of scope of the subsystem; the image is modelled
as directly exposing its chain identity (or a resolution error) and its
name. -/
structure Image where
  rootFS : Except GoErr String
  name : String
deriving DecidableEq

/-- The fields of `containers.Container` that `withRemappedSnapshotBase`
touches. -/
structure Container where
  snapshotter : String
  snapshotKey : String
  image : String
deriving DecidableEq

/-- Result of one orchestrator run: the returned error (if any), the
container record after the run, the store state after the run, and the log
of store operations performed, in order. -/
structure RunResult (σ : Type) where
  res : Except GoErr Unit
  c : Container
  s : σ
  log : List StoreOp
deriving DecidableEq

/-- Source line 157: `usernsID := fmt.Sprintf("%s-%d-%d", parent,
rootMap.UID, rootMap.GID)`, the Snapshot Key Deriver. -/
def usernsID (parent : String) (idmap : IdentityMapping) : String :=
  parent ++ "-" ++ toString idmap.RootPair.UID ++ "-" ++ toString idmap.RootPair.GID

/-- Source lines 176–197, the tail of `withRemappedSnapshotBase` reached on
a cache miss (or a cache hit whose target provisioning failed not-found):
prepare the transient `key ++ "-remap"` snapshot from the un-remapped
parent, run the remap walk (its outcome is the `remapOutcome` input, since
the walk acts on the mounted filesystem and not on the store), on walk
failure call `Remove` on `key` best-effort (its result is discarded) and
return the walk error, otherwise commit the transient under `key`, then
provision the target with `View` (read-only) or `Prepare` and bind the
container on success. -/
def withRemappedSnapshotBuild {σ : Type} (st : Store σ) (id key parent imageName : String)
    (readonly : Bool) (remapOutcome : Except GoErr Unit)
    (c : Container) (s : σ) (log : List StoreOp) : RunResult σ :=
  match st.prepare s (key ++ "-remap") parent with
  | (.error e, s1) => ⟨.error e, c, s1, log ++ [.prepare (key ++ "-remap") parent]⟩
  | (.ok _, s1) =>
      match remapOutcome with
      | .error e =>
          ⟨.error e, c, (st.remove s1 key).2,
            log ++ [.prepare (key ++ "-remap") parent, .remove key]⟩
      | .ok _ =>
          match st.commit s1 key (key ++ "-remap") with
          | (.error e, s2) =>
              ⟨.error e, c, s2,
                log ++ [.prepare (key ++ "-remap") parent, .commit key (key ++ "-remap")]⟩
          | (.ok _, s2) =>
              match (if readonly then st.view s2 id key else st.prepare s2 id key) with
              | (.error e, s3) =>
                  ⟨.error e, c, s3,
                    log ++ [.prepare (key ++ "-remap") parent, .commit key (key ++ "-remap"),
                      if readonly then .view id key else .prepare id key]⟩
              | (.ok _, s3) =>
                  ⟨.ok (), { c with snapshotKey := id, image := imageName }, s3,
                    log ++ [.prepare (key ++ "-remap") parent, .commit key (key ++ "-remap"),
                      if readonly then .view id key else .prepare id key]⟩

/-- Source lines 148–199, `withRemappedSnapshotBase`: resolve the image's
chain identity, derive the cache key (`usernsID`), resolve the snapshotter
name on the container record (the name-resolution collaborator is modelled
as the total function `resolveName`; the store handle `st` stands for
`client.getSnapshotter`), probe the cache key with `Stat`, on a hit attempt
`Prepare(id, key)` and bind on success (a non-not-found prepare error is
returned, a not-found one falls through), and otherwise run the build tail
`withRemappedSnapshotBuild`. -/
def withRemappedSnapshotBase {σ : Type} (st : Store σ) (resolveName : String → String)
    (id : String) (i : Image) (idmap : IdentityMapping) (readonly : Bool)
    (remapOutcome : Except GoErr Unit) (c : Container) (s0 : σ) : RunResult σ :=
  match i.rootFS with
  | .error e => ⟨.error e, c, s0, []⟩
  | .ok parent =>
      let key := usernsID parent idmap
      let c1 : Container := { c with snapshotter := resolveName c.snapshotter }
      match st.stat s0 key with
      | (.ok _, s1) =>
          match st.prepare s1 id key with
          | (.ok _, s2) =>
              ⟨.ok (), { c1 with snapshotKey := id, image := i.name }, s2,
                [.stat key, .prepare id key]⟩
          | (.error e, s2) =>
              if e.isNotFound then
                withRemappedSnapshotBuild st id key parent i.name readonly remapOutcome c1 s2
                  [.stat key, .prepare id key]
              else ⟨.error e, c1, s2, [.stat key, .prepare id key]⟩
      | (.error _, s1) =>
          withRemappedSnapshotBuild st id key parent i.name readonly remapOutcome c1 s1
            [.stat key]

/-- The singleton mapping built inline by `WithRemappedSnapshot` and
`WithRemappedSnapshotView` (source lines 102–117 and 126–141): container 0
maps to the given host uid/gid, length 1, on each axis. -/
def singletonMapping (uid gid : Nat) : IdentityMapping :=
  ⟨[⟨0, (uid : Int), 1⟩], [⟨0, (gid : Int), 1⟩]⟩

/-- Source lines 101–119: `WithRemappedSnapshot` builds the singleton
mapping and delegates to the base with the read-write mode. -/
def WithRemappedSnapshot {σ : Type} (st : Store σ) (resolveName : String → String)
    (id : String) (i : Image) (uid gid : Nat) :
    Except GoErr Unit → Container → σ → RunResult σ :=
  withRemappedSnapshotBase st resolveName id i
    ⟨[⟨0, (uid : Int), 1⟩], [⟨0, (gid : Int), 1⟩]⟩ false

/-- Source lines 120–122: `WithMultiRemappedSnapshot` delegates to the base
with the read-write mode. -/
def WithMultiRemappedSnapshot {σ : Type} (st : Store σ) (resolveName : String → String)
    (id : String) (i : Image) (idmap : IdentityMapping) :
    Except GoErr Unit → Container → σ → RunResult σ :=
  withRemappedSnapshotBase st resolveName id i idmap false

/-- Source lines 125–143: `WithRemappedSnapshotView` builds the singleton
mapping and delegates to the base with the read-only mode. -/
def WithRemappedSnapshotView {σ : Type} (st : Store σ) (resolveName : String → String)
    (id : String) (i : Image) (uid gid : Nat) :
    Except GoErr Unit → Container → σ → RunResult σ :=
  withRemappedSnapshotBase st resolveName id i
    ⟨[⟨0, (uid : Int), 1⟩], [⟨0, (gid : Int), 1⟩]⟩ true

/-- Source lines 144–146: `WithMultiRemappedSnapshotView` delegates to the
base with the read-only mode. -/
def WithMultiRemappedSnapshotView {σ : Type} (st : Store σ) (resolveName : String → String)
    (id : String) (i : Image) (idmap : IdentityMapping) :
    Except GoErr Unit → Container → σ → RunResult σ :=
  withRemappedSnapshotBase st resolveName id i idmap true

/-- Metadata of one filesystem entry as the walk callback sees it:
current owner, whether the entry is a symlink (and the path its link points
to, possibly outside the walked subtree), and an optional metadata-read
failure (`filepath.Walk` hands a failed `lstat` to the callback as a
non-nil `err`). -/
structure FileInfo where
  uid : Int
  gid : Int
  isSymlink : Bool
  linkTarget : Option String
  statErr : Option String
deriving DecidableEq

/-- A modelled filesystem: an association list from path to entry metadata
(first binding wins). -/
abbrev FS : Type := List (String × FileInfo)

/-- Path lookup in the modelled filesystem. -/
def lookupFS : FS → String → Option FileInfo
  | [], _ => none
  | (p, info) :: rest, q => if q = p then some info else lookupFS rest q

/-- `os.Lchown` (source line 218): change the owner of the entry at `p`
itself. A symlink's own record is updated; its `linkTarget` is never
dereferenced, so no other path's entry is touched. -/
def lchown (fs : FS) (p : String) (uid gid : Int) : FS :=
  fs.map (fun e => if e.1 = p then (e.1, { e.2 with uid := uid, gid := gid }) else e)

/-- Structural character-list prefix test (kept explicit so that it
evaluates by kernel reduction). -/
def charsPrefix : List Char → List Char → Bool
  | [], _ => true
  | _ :: _, [] => false
  | a :: as, b :: bs => a = b && charsPrefix as bs

/-- Whether `p` lies in the subtree rooted at `root` (the root itself or a
path below it); `filepath.Walk root` visits exactly these paths. -/
def underRoot (root p : String) : Bool :=
  p = root || charsPrefix (root ++ "/").data p.data

/-- Source lines 207–219, the `chown` walk callback applied to one entry:
a metadata-read failure is returned as-is, otherwise the entry's current
owner is translated with `ToHost` (a translation failure is returned
as-is) and the entry is re-owned with `lchown`. -/
def chown (idmap : IdentityMapping) (fs : FS) (p : String) (info : FileInfo) :
    Except GoErr FS :=
  match info.statErr with
  | some m => .error (.other m)
  | none =>
      match idmap.ToHost ⟨info.uid, info.gid⟩ with
      | .error e => .error e
      | .ok h => .ok (lchown fs p h.UID h.GID)

/-- The outcome the `chown` callback has on one entry, which depends only
on the entry's metadata: `none` when the entry is re-owned successfully,
`some e` when the callback returns the error `e`. -/
def entryErr (idmap : IdentityMapping) (info : FileInfo) : Option GoErr :=
  match info.statErr with
  | some m => some (.other m)
  | none =>
      match idmap.ToHost ⟨info.uid, info.gid⟩ with
      | .error e => some e
      | .ok _ => none

/-- The traversal loop of `filepath.Walk root` (source line 203): visit the
listed entries in order, skip those outside the subtree of `root`, apply
the `chown` callback to each visited one, and abort with the first error
the callback returns. -/
def walkGo (idmap : IdentityMapping) (root : String) :
    List (String × FileInfo) → FS → Except GoErr FS
  | [], fs => .ok fs
  | (p, info) :: rest, fs =>
      if underRoot root p then
        match chown idmap fs p info with
        | .error e => .error e
        | .ok fs2 => walkGo idmap root rest fs2
      else walkGo idmap root rest fs

/-- `filepath.Walk(root, chown(root, idmap))`: walk the filesystem's own
entry list over itself (ownership updates do not change which entries
exist, so visiting the initial entry list is faithful). -/
def walkChown (idmap : IdentityMapping) (root : String) (fs : FS) : Except GoErr FS :=
  walkGo idmap root fs fs

/-- Source lines 201–205, `remapRootFS`: mount the snapshot's content and
walk it with the `chown` callback. The scoped temporary mount is the mount
collaborator; its content is the modelled filesystem `fs` rooted at
`root`. -/
def remapRootFS (idmap : IdentityMapping) (root : String) (fs : FS) : Except GoErr FS :=
  walkChown idmap root fs

/-- Store oracle for the commit race: identical to the reference store
except that `Commit` fails (with a non-not-found error) while the
committed artifact appears under the target name, as when a concurrent
provisioning run wins the commit race. -/
def commitFailStore (e : GoErr) : Store StoreState :=
  { concreteStore with
    commit := fun s name _ => (.error e, insertSnap s name ⟨SnapKind.committed, ""⟩) }

/-- Store oracle for a failing existence probe: identical to the reference
store except that `Stat` always fails with the given error. -/
def statErrStore (e : GoErr) : Store StoreState :=
  { concreteStore with stat := fun s _ => (.error e, s) }

/-! ### Helper lemmas -/

theorem lookup_insertSnap (s : StoreState) (k : String) (v : SnapInfo) (q : String) :
    lookupSnap (insertSnap s k v) q = if q = k then some v else lookupSnap s q := rfl

theorem removeSnap_cons (a : String) (b : SnapInfo) (xs : StoreState) (k : String) :
    removeSnap ((a, b) :: xs) k
      = if a = k then removeSnap xs k else (a, b) :: removeSnap xs k := rfl

theorem lookup_removeSnap (s : StoreState) (k q : String) :
    lookupSnap (removeSnap s k) q = if q = k then none else lookupSnap s q := by
  induction s with
  | nil => by_cases hq : q = k <;> simp [removeSnap, lookupSnap, hq]
  | cons x xs ih =>
      obtain ⟨xk, xv⟩ := x
      rw [removeSnap_cons]
      by_cases hx : xk = k
      · rw [if_pos hx, ih]
        subst hx
        by_cases hq : q = xk <;> simp [lookupSnap, hq]
      · rw [if_neg hx]
        by_cases hq : q = xk
        · subst hq
          simp [lookupSnap, hx]
        · simp [lookupSnap, hq, ih]

theorem ne_append_remap (s : String) : s ≠ s ++ "-remap" := by
  intro h
  have h2 := congrArg String.length h
  rw [String.length_append] at h2
  have h3 : ("-remap" : String).length = 6 := rfl
  rw [h3] at h2
  omega

/-- Every run of the build tail either fails with some error and leaves the
container record exactly as given, or succeeds and binds the container to
the target snapshot and image name. -/
theorem build_binding_cases {σ : Type} (st : Store σ) (id key parent imageName : String)
    (readonly : Bool) (remapOutcome : Except GoErr Unit) (c : Container) (s : σ)
    (log : List StoreOp) :
    (∃ e, (withRemappedSnapshotBuild st id key parent imageName readonly remapOutcome c s log).res
            = Except.error e ∧
          (withRemappedSnapshotBuild st id key parent imageName readonly remapOutcome c s log).c
            = c) ∨
    ((withRemappedSnapshotBuild st id key parent imageName readonly remapOutcome c s log).res
        = Except.ok () ∧
     (withRemappedSnapshotBuild st id key parent imageName readonly remapOutcome c s log).c
        = { c with snapshotKey := id, image := imageName }) := by
  unfold withRemappedSnapshotBuild
  repeat' split
  all_goals first
    | exact Or.inl ⟨_, rfl, rfl⟩
    | exact Or.inr ⟨rfl, rfl⟩

/-- C8: for every call to the provisioning operation — over any snapshot
store implementation, any initial store state and any walk outcome — the
container's snapshot binding (the `SnapshotKey` and `Image` fields) is
written only when the run succeeds, in which case the target snapshot was
just provisioned from the committed artifact and the binding is target
name and image name; on every failing execution path the run returns the
error with both binding fields exactly as they were before the call. -/
theorem withRemappedSnapshotBase_no_partial_binding {σ : Type} (st : Store σ)
    (resolveName : String → String) (id : String) (i : Image) (idmap : IdentityMapping)
    (readonly : Bool) (remapOutcome : Except GoErr Unit) (c : Container) (s0 : σ) :
    (∃ e, (withRemappedSnapshotBase st resolveName id i idmap readonly remapOutcome c s0).res
            = Except.error e ∧
          (withRemappedSnapshotBase st resolveName id i idmap readonly remapOutcome c s0).c.snapshotKey
            = c.snapshotKey ∧
          (withRemappedSnapshotBase st resolveName id i idmap readonly remapOutcome c s0).c.image
            = c.image) ∨
    ((withRemappedSnapshotBase st resolveName id i idmap readonly remapOutcome c s0).res
        = Except.ok () ∧
     (withRemappedSnapshotBase st resolveName id i idmap readonly remapOutcome c s0).c.snapshotKey
        = id ∧
     (withRemappedSnapshotBase st resolveName id i idmap readonly remapOutcome c s0).c.image
        = i.name) := by
  obtain ⟨rfs, iname⟩ := i
  rcases rfs with e0 | parent
  · exact Or.inl ⟨e0, rfl, rfl, rfl⟩
  · unfold withRemappedSnapshotBase
    dsimp only
    split
    · split
      · exact Or.inr ⟨rfl, rfl, rfl⟩
      · rename_i u1 sA hA e2 sB hB
        split
        · rcases build_binding_cases st id (usernsID parent idmap) parent iname readonly
              remapOutcome { c with snapshotter := resolveName c.snapshotter } sB
              [StoreOp.stat (usernsID parent idmap), StoreOp.prepare id (usernsID parent idmap)]
            with ⟨e, he, hc⟩ | ⟨he, hc⟩
          · exact Or.inl ⟨e, he, by rw [hc], by rw [hc]⟩
          · exact Or.inr ⟨he, by rw [hc], by rw [hc]⟩
        · exact Or.inl ⟨_, rfl, rfl, rfl⟩
    · rename_i e1 sB hB
      rcases build_binding_cases st id (usernsID parent idmap) parent iname readonly
          remapOutcome { c with snapshotter := resolveName c.snapshotter } sB
          [StoreOp.stat (usernsID parent idmap)]
        with ⟨e, he, hc⟩ | ⟨he, hc⟩
      · exact Or.inl ⟨e, he, by rw [hc], by rw [hc]⟩
      · exact Or.inr ⟨he, by rw [hc], by rw [hc]⟩

theorem lookupFS_cons (a : String) (b : FileInfo) (xs : FS) (q : String) :
    lookupFS ((a, b) :: xs) q = if q = a then some b else lookupFS xs q := rfl

theorem lchown_cons (a : String) (b : FileInfo) (xs : FS) (p : String) (u g : Int) :
    lchown ((a, b) :: xs) p u g
      = (if a = p then (a, { b with uid := u, gid := g }) else (a, b)) :: lchown xs p u g := rfl

theorem lchown_lookup_ne (fs : FS) (p : String) (u g : Int) (q : String) (h : q ≠ p) :
    lookupFS (lchown fs p u g) q = lookupFS fs q := by
  induction fs with
  | nil => rfl
  | cons x xs ih =>
      obtain ⟨xp, xi⟩ := x
      rw [lchown_cons]
      by_cases hx : xp = p
      · rw [if_pos hx, lookupFS_cons, lookupFS_cons]
        have hqx : ¬ (q = xp) := fun hh => h (hh.trans hx)
        rw [if_neg hqx, if_neg hqx, ih]
      · rw [if_neg hx, lookupFS_cons, lookupFS_cons, ih]

theorem chown_ok_shape (idmap : IdentityMapping) (fs : FS) (p : String) (info : FileInfo)
    (fs2 : FS) (h : chown idmap fs p info = Except.ok fs2) :
    ∃ u g, fs2 = lchown fs p u g := by
  unfold chown at h
  rcases hs : info.statErr with _ | m
  · simp only [hs] at h
    rcases ht : idmap.ToHost ⟨info.uid, info.gid⟩ with e | hid
    · simp [ht] at h
    · simp only [ht, Except.ok.injEq] at h
      exact ⟨hid.UID, hid.GID, h.symm⟩
  · simp [hs] at h

theorem chown_ok_of_entryErr_none (idmap : IdentityMapping) (fs : FS) (p : String)
    (info : FileInfo) (h : entryErr idmap info = none) :
    ∃ u g, chown idmap fs p info = Except.ok (lchown fs p u g) := by
  unfold entryErr at h
  unfold chown
  rcases hs : info.statErr with _ | m
  · simp only [hs] at h
    rcases ht : idmap.ToHost ⟨info.uid, info.gid⟩ with e | hid
    · simp [ht] at h
    · simp only [ht]
      exact ⟨hid.UID, hid.GID, rfl⟩
  · simp [hs] at h

theorem chown_error_of_entryErr_some (idmap : IdentityMapping) (fs : FS) (p : String)
    (info : FileInfo) (e : GoErr) (h : entryErr idmap info = some e) :
    chown idmap fs p info = Except.error e := by
  unfold entryErr at h
  unfold chown
  rcases hs : info.statErr with _ | m
  · simp only [hs] at h ⊢
    rcases ht : idmap.ToHost ⟨info.uid, info.gid⟩ with e2 | hid
    · simp only [ht, Option.some.injEq] at h
      simp only [ht, h]
    · simp [ht] at h
  · simp only [hs, Option.some.injEq] at h
    simp only [hs, h]

theorem walkGo_frame (idmap : IdentityMapping) (root q : String)
    (hq : underRoot root q = false) :
    ∀ (entries : List (String × FileInfo)) (fs fs2 : FS),
      walkGo idmap root entries fs = Except.ok fs2 → lookupFS fs2 q = lookupFS fs q := by
  intro entries
  induction entries with
  | nil =>
      intro fs fs2 h
      unfold walkGo at h
      cases h
      rfl
  | cons x xs ih =>
      intro fs fs2 h
      obtain ⟨p, info⟩ := x
      unfold walkGo at h
      cases hu : underRoot root p
      · rw [if_neg (by simp [hu])] at h
        exact ih fs fs2 h
      · rw [if_pos hu] at h
        rcases hc : chown idmap fs p info with e | fsMid
        · simp [hc] at h
        · simp only [hc] at h
          obtain ⟨u, g, hshape⟩ := chown_ok_shape idmap fs p info fsMid hc
          have hqp : q ≠ p := by
            intro hh
            rw [hh, hu] at hq
            cases hq
          rw [ih fsMid fs2 h, hshape, lchown_lookup_ne fs p u g q hqp]

theorem walkGo_first_error (idmap : IdentityMapping) (root : String) :
    ∀ (pre : List (String × FileInfo)) (p : String) (info : FileInfo)
      (post : List (String × FileInfo)) (e : GoErr) (fs : FS),
      (∀ x ∈ pre, underRoot root x.1 = true → entryErr idmap x.2 = none) →
      underRoot root p = true → entryErr idmap info = some e →
      walkGo idmap root (pre ++ (p, info) :: post) fs = Except.error e := by
  intro pre
  induction pre with
  | nil =>
      intro p info post e fs hpre hp he
      have hc := chown_error_of_entryErr_some idmap fs p info e he
      show walkGo idmap root ((p, info) :: post) fs = Except.error e
      unfold walkGo
      simp [hp, hc]
  | cons x xs ih =>
      intro p info post e fs hpre hp he
      obtain ⟨xp, xi⟩ := x
      show walkGo idmap root ((xp, xi) :: (xs ++ (p, info) :: post)) fs = Except.error e
      unfold walkGo
      cases hu : underRoot root xp
      · rw [if_neg (by simp)]
        exact ih p info post e fs (fun y hy => hpre y (List.mem_cons_of_mem _ hy)) hp he
      · have hno : entryErr idmap xi = none := hpre (xp, xi) (List.mem_cons_self _ _) hu
        obtain ⟨u, g, hcc⟩ := chown_ok_of_entryErr_none idmap fs xp xi hno
        rw [if_pos rfl, hcc]
        exact ih p info post e (lchown fs xp u g)
          (fun y hy => hpre y (List.mem_cons_of_mem _ hy)) hp he

/-! ### Shared example inputs -/

/-- The singleton mapping container (0,0) → host (1000,1000). -/
def exMap : IdentityMapping := singletonMapping 1000 1000

/-- A regular entry owned by container root. -/
def okInfo : FileInfo := ⟨0, 0, false, none, none⟩

/-- A symlink owned by container root whose target lies outside the
walked subtree. -/
def linkInfo : FileInfo := ⟨0, 0, true, some "/outside", none⟩

/-- An entry whose owner is outside every configured range of `exMap`. -/
def badInfo : FileInfo := ⟨5, 5, false, none, none⟩

/-- Example filesystem: the walked subtree `/r` containing a symlink to
`/outside`, and the out-of-subtree target itself. -/
def fsEx : FS := [("/r", okInfo), ("/r/link", linkInfo), ("/outside", ⟨7, 7, false, none, none⟩)]

/-- The filesystem after the walk re-owns `/r` and `/r/link`. -/
def fsEx2 : FS := lchown (lchown fsEx "/r" 1000 1000) "/r/link" 1000 1000

/-- C6: for every directory tree walked by the ownership-remap walk, every
path outside the walked subtree — in particular the target of a symlink
entry that points outside it — has exactly the same entry (so the same
ownership) after a successful walk as before it: `os.Lchown` re-owns only
the link object itself and never dereferences `linkTarget`. -/
theorem remapRootFS_symlink_frame (idmap : IdentityMapping) (root : String) (fs fs2 : FS)
    (q : String) (hok : remapRootFS idmap root fs = Except.ok fs2)
    (hq : underRoot root q = false) :
    lookupFS fs2 q = lookupFS fs q :=
  walkGo_frame idmap root q hq fs fs fs2 hok

/-- Witness for C6: a concrete walk over a subtree containing a symlink to
`/outside` succeeds, the link object itself is re-owned to the host pair,
and the out-of-subtree target's ownership is unchanged. -/
theorem remapRootFS_symlink_frame_witness :
    remapRootFS exMap "/r" fsEx = Except.ok fsEx2 ∧
    underRoot "/r" "/outside" = false ∧
    lookupFS fsEx2 "/r/link" = some ⟨1000, 1000, true, some "/outside", none⟩ ∧
    lookupFS fsEx2 "/outside" = lookupFS fsEx "/outside" := by
  refine ⟨by decide, by decide, by decide, ?_⟩
  exact remapRootFS_symlink_frame exMap "/r" fsEx fsEx2 "/outside" (by decide) (by decide)

/-- C7: for every directory tree walked by the ownership-remap walker, if
every visited entry before some entry is processed cleanly, that entry is
inside the walked subtree, and reading its metadata fails or the Ownership
Translator fails on its owner (`entryErr` yields an error), then the remap
operation returns exactly that first error — the walk aborts with no
partial-success result. -/
theorem remapRootFS_aborts_on_first_error (idmap : IdentityMapping) (root : String)
    (pre : List (String × FileInfo)) (p : String) (info : FileInfo)
    (post : List (String × FileInfo)) (e : GoErr)
    (hpre : ∀ x ∈ pre, underRoot root x.1 = true → entryErr idmap x.2 = none)
    (hp : underRoot root p = true) (he : entryErr idmap info = some e) :
    remapRootFS idmap root (pre ++ (p, info) :: post) = Except.error e :=
  walkGo_first_error idmap root pre p info post e (pre ++ (p, info) :: post) hpre hp he

/-- Witness for C7: a concrete walk whose second entry has an owner outside
every configured range aborts with the translation error, even though a
further entry follows. -/
theorem remapRootFS_aborts_on_first_error_witness :
    (∀ x ∈ [("/r", okInfo)], underRoot "/r" x.1 = true → entryErr exMap x.2 = none) ∧
    underRoot "/r" "/r/bad" = true ∧
    entryErr exMap badInfo = some (GoErr.other "no mapping for pair") ∧
    remapRootFS exMap "/r" ([("/r", okInfo)] ++ ("/r/bad", badInfo) :: [("/r/c", okInfo)])
      = Except.error (GoErr.other "no mapping for pair") := by
  refine ⟨by decide, by decide, by decide, ?_⟩
  exact remapRootFS_aborts_on_first_error exMap "/r" [("/r", okInfo)] "/r/bad" badInfo
    [("/r/c", okInfo)] (GoErr.other "no mapping for pair") (by decide) (by decide) (by decide)

/-- Original container record before provisioning. -/
def exContainer : Container := ⟨"overlayfs", "oldkey", "oldimg"⟩

/-- Example image resolving to the chain identity `sha256:abc`. -/
def exImage : Image := ⟨.ok "sha256:abc", "docker.io/library/img:latest"⟩

/-- The cache key derived for `exImage` under `exMap`. -/
def exKey : String := "sha256:abc-1000-1000"

/-- Store already holding the committed remapped artifact (cache hit). -/
def hitStore : StoreState :=
  [(exKey, ⟨SnapKind.committed, "sha256:abc"⟩), ("sha256:abc", ⟨SnapKind.committed, ""⟩)]

/-- Store holding only the un-remapped parent layer (cache miss). -/
def missStore : StoreState := [("sha256:abc", ⟨SnapKind.committed, ""⟩)]

/-- A read-only (view) provisioning request hitting the cache. -/
def viewHitRun : RunResult StoreState :=
  WithRemappedSnapshotView concreteStore (fun n => n) "ctr1" exImage 1000 1000
    (Except.ok ()) exContainer hitStore

/-- C1, evaluation of the code at the failing input: a read-only (view)
provisioning request with the committed remapped artifact present under
the cache key succeeds, but the target is provisioned with
`Prepare("ctr1", cacheKey)` — the store records a writable active
snapshot and no `View` operation is ever issued, although the read-only
mode was requested. -/
theorem view_cache_hit_prepares_writable :
    viewHitRun.res = Except.ok () ∧
    viewHitRun.log = [StoreOp.stat exKey, StoreOp.prepare "ctr1" exKey] ∧
    lookupSnap viewHitRun.s "ctr1" = some ⟨SnapKind.active, exKey⟩ ∧
    StoreOp.view "ctr1" exKey ∉ viewHitRun.log :=
  ⟨rfl, rfl, rfl, by decide⟩

/-- A cache-miss run in which the ownership-remap walk fails. -/
def walkFailRun : RunResult StoreState :=
  withRemappedSnapshotBase concreteStore (fun n => n) "ctr1" exImage exMap false
    (Except.error (GoErr.other "walk failed")) exContainer missStore

/-- Counterexample to C2: after a run whose walk fails, the transient
active snapshot `cacheKey ++ "-remap"` is NOT removed — it is still in the
store — because the cleanup calls `Remove` on the cache key itself
(`usernsID`), as the run's operation log shows. -/
theorem walk_failure_transient_not_removed :
    walkFailRun.res = Except.error (GoErr.other "walk failed") ∧
    lookupSnap walkFailRun.s (exKey ++ "-remap") = some ⟨SnapKind.active, "sha256:abc"⟩ ∧
    walkFailRun.log = [StoreOp.stat exKey, StoreOp.prepare (exKey ++ "-remap") "sha256:abc",
      StoreOp.remove exKey] :=
  ⟨rfl, rfl, rfl⟩

/-- C2 amended: when the ownership-remap walk fails after the transient
active snapshot was created, the orchestrator issues a best-effort
`Remove` of the snapshot under the cache key itself (its error is
discarded), not of the transient `"-remap"` snapshot, and then returns the
walk error; a subsequent existence probe of the cache key reports
not-found and no committed artifact exists under the cache key, but the
transient active snapshot remains in the store. -/
theorem walk_failure_cleanup_removes_cache_key (rn : String → String)
    (id imgName parent q : String) (idmap : IdentityMapping) (ro : Bool) (c : Container)
    (s : StoreState) (e : GoErr)
    (h1 : lookupSnap s (usernsID parent idmap) = none)
    (h2 : lookupSnap s (usernsID parent idmap ++ "-remap") = none)
    (h3 : lookupSnap s parent = some ⟨SnapKind.committed, q⟩) :
    (withRemappedSnapshotBase concreteStore rn id ⟨Except.ok parent, imgName⟩ idmap ro
        (Except.error e) c s).res = Except.error e ∧
    lookupSnap (withRemappedSnapshotBase concreteStore rn id ⟨Except.ok parent, imgName⟩ idmap ro
        (Except.error e) c s).s (usernsID parent idmap) = none ∧
    lookupSnap (withRemappedSnapshotBase concreteStore rn id ⟨Except.ok parent, imgName⟩ idmap ro
        (Except.error e) c s).s (usernsID parent idmap ++ "-remap")
      = some ⟨SnapKind.active, parent⟩ ∧
    (withRemappedSnapshotBase concreteStore rn id ⟨Except.ok parent, imgName⟩ idmap ro
        (Except.error e) c s).log
      = [StoreOp.stat (usernsID parent idmap),
         StoreOp.prepare (usernsID parent idmap ++ "-remap") parent,
         StoreOp.remove (usernsID parent idmap)] := by
  have hne := ne_append_remap (usernsID parent idmap)
  unfold withRemappedSnapshotBase withRemappedSnapshotBuild
  simp [concreteStore, statImpl, prepareImpl, removeImpl, h1, h2, h3,
    lookup_insertSnap, hne]

/-- Witness for C2's amended statement at a concrete input. -/
theorem walk_failure_cleanup_removes_cache_key_witness :
    lookupSnap missStore (usernsID "sha256:abc" exMap) = none ∧
    lookupSnap missStore (usernsID "sha256:abc" exMap ++ "-remap") = none ∧
    lookupSnap missStore "sha256:abc" = some ⟨SnapKind.committed, ""⟩ ∧
    ((withRemappedSnapshotBase concreteStore (fun n => n) "ctr1"
        ⟨Except.ok "sha256:abc", "img"⟩ exMap false
        (Except.error (GoErr.other "boom")) exContainer missStore).res
      = Except.error (GoErr.other "boom") ∧
     lookupSnap (withRemappedSnapshotBase concreteStore (fun n => n) "ctr1"
        ⟨Except.ok "sha256:abc", "img"⟩ exMap false
        (Except.error (GoErr.other "boom")) exContainer missStore).s
        (usernsID "sha256:abc" exMap) = none ∧
     lookupSnap (withRemappedSnapshotBase concreteStore (fun n => n) "ctr1"
        ⟨Except.ok "sha256:abc", "img"⟩ exMap false
        (Except.error (GoErr.other "boom")) exContainer missStore).s
        (usernsID "sha256:abc" exMap ++ "-remap") = some ⟨SnapKind.active, "sha256:abc"⟩ ∧
     (withRemappedSnapshotBase concreteStore (fun n => n) "ctr1"
        ⟨Except.ok "sha256:abc", "img"⟩ exMap false
        (Except.error (GoErr.other "boom")) exContainer missStore).log
      = [StoreOp.stat (usernsID "sha256:abc" exMap),
         StoreOp.prepare (usernsID "sha256:abc" exMap ++ "-remap") "sha256:abc",
         StoreOp.remove (usernsID "sha256:abc" exMap)]) :=
  ⟨rfl, rfl, rfl,
    walk_failure_cleanup_removes_cache_key (fun n => n) "ctr1" "img" "sha256:abc" ""
      exMap false exContainer missStore (GoErr.other "boom") rfl rfl rfl⟩

/-- A cache-miss run over the commit-race oracle: the commit fails while
the artifact appears under the cache key (a concurrent committer won). -/
def commitRaceRun : RunResult StoreState :=
  withRemappedSnapshotBase (commitFailStore (GoErr.other "already exists")) (fun n => n)
    "ctr1" exImage exMap false (Except.ok ()) exContainer missStore

/-- Counterexample to C3: the commit of the transient snapshot fails while
a subsequent existence check would confirm the artifact exists under the
cache key (it is in the final store), yet the run propagates the commit
error instead of treating it as non-fatal, and its operation log ends at
the commit — no existence re-check is ever issued. -/
theorem commit_failure_fatal_despite_existing :
    commitRaceRun.res = Except.error (GoErr.other "already exists") ∧
    lookupSnap commitRaceRun.s exKey = some ⟨SnapKind.committed, ""⟩ ∧
    commitRaceRun.log = [StoreOp.stat exKey, StoreOp.prepare (exKey ++ "-remap") "sha256:abc",
      StoreOp.commit exKey (exKey ++ "-remap")] :=
  ⟨rfl, rfl, rfl⟩

/-- C3 amended: every failure of the `Commit` of the transient snapshot is
propagated to the caller unconditionally; the orchestrator performs no
subsequent existence check (the operation log ends at the commit), even
when the artifact does exist under the cache key after the failed
commit. -/
theorem commit_failure_always_propagated (rn : String → String)
    (id imgName parent q : String) (idmap : IdentityMapping) (ro : Bool) (c : Container)
    (s : StoreState) (e : GoErr)
    (h1 : lookupSnap s (usernsID parent idmap) = none)
    (h2 : lookupSnap s (usernsID parent idmap ++ "-remap") = none)
    (h3 : lookupSnap s parent = some ⟨SnapKind.committed, q⟩) :
    (withRemappedSnapshotBase (commitFailStore e) rn id ⟨Except.ok parent, imgName⟩ idmap ro
        (Except.ok ()) c s).res = Except.error e ∧
    lookupSnap (withRemappedSnapshotBase (commitFailStore e) rn id ⟨Except.ok parent, imgName⟩
        idmap ro (Except.ok ()) c s).s (usernsID parent idmap)
      = some ⟨SnapKind.committed, ""⟩ ∧
    (withRemappedSnapshotBase (commitFailStore e) rn id ⟨Except.ok parent, imgName⟩ idmap ro
        (Except.ok ()) c s).log
      = [StoreOp.stat (usernsID parent idmap),
         StoreOp.prepare (usernsID parent idmap ++ "-remap") parent,
         StoreOp.commit (usernsID parent idmap) (usernsID parent idmap ++ "-remap")] := by
  unfold withRemappedSnapshotBase withRemappedSnapshotBuild
  simp [commitFailStore, concreteStore, statImpl, prepareImpl, h1, h2, h3,
    lookup_insertSnap]

/-- Witness for C3's amended statement at a concrete input. -/
theorem commit_failure_always_propagated_witness :
    lookupSnap missStore (usernsID "sha256:abc" exMap) = none ∧
    lookupSnap missStore (usernsID "sha256:abc" exMap ++ "-remap") = none ∧
    lookupSnap missStore "sha256:abc" = some ⟨SnapKind.committed, ""⟩ ∧
    ((withRemappedSnapshotBase (commitFailStore (GoErr.other "exists")) (fun n => n) "ctr1"
        ⟨Except.ok "sha256:abc", "img"⟩ exMap false (Except.ok ()) exContainer missStore).res
      = Except.error (GoErr.other "exists") ∧
     lookupSnap (withRemappedSnapshotBase (commitFailStore (GoErr.other "exists")) (fun n => n)
        "ctr1" ⟨Except.ok "sha256:abc", "img"⟩ exMap false (Except.ok ()) exContainer
        missStore).s (usernsID "sha256:abc" exMap) = some ⟨SnapKind.committed, ""⟩ ∧
     (withRemappedSnapshotBase (commitFailStore (GoErr.other "exists")) (fun n => n) "ctr1"
        ⟨Except.ok "sha256:abc", "img"⟩ exMap false (Except.ok ()) exContainer missStore).log
      = [StoreOp.stat (usernsID "sha256:abc" exMap),
         StoreOp.prepare (usernsID "sha256:abc" exMap ++ "-remap") "sha256:abc",
         StoreOp.commit (usernsID "sha256:abc" exMap)
           (usernsID "sha256:abc" exMap ++ "-remap")]) :=
  ⟨rfl, rfl, rfl,
    commit_failure_always_propagated (fun n => n) "ctr1" "img" "sha256:abc" "" exMap false
      exContainer missStore (GoErr.other "exists") rfl rfl rfl⟩

/-- A run over the failing-probe oracle: `Stat` fails with a non-not-found
store error. -/
def statErrRun : RunResult StoreState :=
  withRemappedSnapshotBase (statErrStore (GoErr.other "io failure")) (fun n => n) "ctr1"
    exImage exMap false (Except.ok ()) exContainer missStore

/-- Counterexample to C4: the existence probe fails with a store error that
is NOT a not-found, yet the run does not propagate it: it takes the
fallback build path (the transient prepare appears in the log) and returns
success. -/
theorem stat_error_not_propagated :
    statErrRun.res = Except.ok () ∧
    StoreOp.prepare (exKey ++ "-remap") "sha256:abc" ∈ statErrRun.log ∧
    lookupSnap statErrRun.s "ctr1" = some ⟨SnapKind.active, exKey⟩ :=
  ⟨rfl, by decide, rfl⟩

/-- C4 amended: ANY error of the existence probe — not-found or not —
triggers the fallback build path; the probe's error is never propagated
(on an otherwise clean build the run succeeds and binds the target). -/
theorem stat_error_triggers_fallback (rn : String → String)
    (id imgName parent q : String) (idmap : IdentityMapping) (ro : Bool) (c : Container)
    (s : StoreState) (e : GoErr)
    (h1 : lookupSnap s (usernsID parent idmap) = none)
    (h2 : lookupSnap s (usernsID parent idmap ++ "-remap") = none)
    (h3 : lookupSnap s parent = some ⟨SnapKind.committed, q⟩)
    (h4 : lookupSnap s id = none)
    (h5 : id ≠ usernsID parent idmap)
    (h6 : id ≠ usernsID parent idmap ++ "-remap") :
    (withRemappedSnapshotBase (statErrStore e) rn id ⟨Except.ok parent, imgName⟩ idmap ro
        (Except.ok ()) c s).res = Except.ok () ∧
    (withRemappedSnapshotBase (statErrStore e) rn id ⟨Except.ok parent, imgName⟩ idmap ro
        (Except.ok ()) c s).c.snapshotKey = id ∧
    (withRemappedSnapshotBase (statErrStore e) rn id ⟨Except.ok parent, imgName⟩ idmap ro
        (Except.ok ()) c s).log
      = [StoreOp.stat (usernsID parent idmap),
         StoreOp.prepare (usernsID parent idmap ++ "-remap") parent,
         StoreOp.commit (usernsID parent idmap) (usernsID parent idmap ++ "-remap"),
         if ro then StoreOp.view id (usernsID parent idmap)
         else StoreOp.prepare id (usernsID parent idmap)] := by
  have hne := ne_append_remap (usernsID parent idmap)
  unfold withRemappedSnapshotBase withRemappedSnapshotBuild
  cases ro <;>
    simp [statErrStore, concreteStore, statImpl, prepareImpl, commitImpl, viewImpl,
      removeImpl, h1, h2, h3, h4, h5, h6, hne, lookup_insertSnap, lookup_removeSnap]

/-- Witness for C4's amended statement at a concrete input with a
non-not-found probe error. -/
theorem stat_error_triggers_fallback_witness :
    lookupSnap missStore (usernsID "sha256:abc" exMap) = none ∧
    lookupSnap missStore (usernsID "sha256:abc" exMap ++ "-remap") = none ∧
    lookupSnap missStore "sha256:abc" = some ⟨SnapKind.committed, ""⟩ ∧
    lookupSnap missStore "ctr1" = none ∧
    "ctr1" ≠ usernsID "sha256:abc" exMap ∧
    "ctr1" ≠ usernsID "sha256:abc" exMap ++ "-remap" ∧
    ((withRemappedSnapshotBase (statErrStore (GoErr.other "io failure")) (fun n => n) "ctr1"
        ⟨Except.ok "sha256:abc", "img"⟩ exMap true (Except.ok ()) exContainer missStore).res
      = Except.ok () ∧
     (withRemappedSnapshotBase (statErrStore (GoErr.other "io failure")) (fun n => n) "ctr1"
        ⟨Except.ok "sha256:abc", "img"⟩ exMap true (Except.ok ()) exContainer
        missStore).c.snapshotKey = "ctr1" ∧
     (withRemappedSnapshotBase (statErrStore (GoErr.other "io failure")) (fun n => n) "ctr1"
        ⟨Except.ok "sha256:abc", "img"⟩ exMap true (Except.ok ()) exContainer missStore).log
      = [StoreOp.stat (usernsID "sha256:abc" exMap),
         StoreOp.prepare (usernsID "sha256:abc" exMap ++ "-remap") "sha256:abc",
         StoreOp.commit (usernsID "sha256:abc" exMap)
           (usernsID "sha256:abc" exMap ++ "-remap"),
         if true then StoreOp.view "ctr1" (usernsID "sha256:abc" exMap)
         else StoreOp.prepare "ctr1" (usernsID "sha256:abc" exMap)]) :=
  ⟨rfl, rfl, rfl, rfl, by decide, by decide,
    stat_error_triggers_fallback (fun n => n) "ctr1" "img" "sha256:abc" "" exMap true
      exContainer missStore (GoErr.other "io failure") rfl rfl rfl rfl (by decide) (by decide)⟩

/-- C5: the derived cache key is exactly
`parent ++ "-" ++ hostUID ++ "-" ++ hostGID` for the mapping's root pair,
and rederiving from equal inputs yields the identical key. -/
theorem usernsID_format (chain : String) (m : IdentityMapping) (u g : Int)
    (h : m.RootPair = ⟨u, g⟩) :
    usernsID chain m = chain ++ "-" ++ toString u ++ "-" ++ toString g ∧
    ∀ (chain2 : String) (m2 : IdentityMapping), chain2 = chain → m2 = m →
      usernsID chain2 m2 = usernsID chain m := by
  constructor
  · unfold usernsID
    rw [h]
  · intro chain2 m2 hc hm
    rw [hc, hm]

/-- Witness for C5: the spec's end-to-end example — chain `sha256:abc`
with root pair (1000,1000) derives `sha256:abc-1000-1000`. -/
theorem usernsID_format_witness :
    exMap.RootPair = ⟨1000, 1000⟩ ∧
    usernsID "sha256:abc" exMap = "sha256:abc-1000-1000" := by
  constructor
  · rfl
  · have h := (usernsID_format "sha256:abc" exMap 1000 1000 rfl).1
    rw [h]
    rfl

/-- C9: the derived cache key depends only on the parent chain identity
and the mapping's root pair — two mappings with equal root pairs derive
equal keys for every parent, whatever their other ranges are. -/
theorem usernsID_depends_only_on_root_pair (parent : String) (m1 m2 : IdentityMapping)
    (h : m1.RootPair = m2.RootPair) : usernsID parent m1 = usernsID parent m2 := by
  unfold usernsID
  rw [h]

/-- A mapping sharing `exMap`'s root pair but carrying an extra UID range
and a differently sized GID range. -/
def wideMap : IdentityMapping :=
  ⟨[⟨0, 1000, 1⟩, ⟨1, 2000, 100⟩], [⟨0, 1000, 50⟩]⟩

/-- Witness for C9: two structurally different mappings with the same root
pair collide on the same cache key. -/
theorem usernsID_depends_only_on_root_pair_witness :
    wideMap ≠ exMap ∧
    wideMap.RootPair = exMap.RootPair ∧
    usernsID "sha256:abc" wideMap = usernsID "sha256:abc" exMap :=
  ⟨by decide, rfl, usernsID_depends_only_on_root_pair "sha256:abc" wideMap exMap rfl⟩

/-- C10: `WithRemappedSnapshot` and `WithRemappedSnapshotView` coincide
with `WithMultiRemappedSnapshot` and `WithMultiRemappedSnapshotView` at
the singleton mapping (container 0 → host uid/gid, length 1 on each axis),
and the four entry points are the same base operation differing only in
the mapping and the read-only flag. -/
theorem remapped_variants_delegate {σ : Type} (st : Store σ) (rn : String → String)
    (id : String) (i : Image) (uid gid : Nat) (m : IdentityMapping) :
    WithRemappedSnapshot st rn id i uid gid
        = WithMultiRemappedSnapshot st rn id i (singletonMapping uid gid) ∧
    WithRemappedSnapshotView st rn id i uid gid
        = WithMultiRemappedSnapshotView st rn id i (singletonMapping uid gid) ∧
    WithMultiRemappedSnapshot st rn id i m = withRemappedSnapshotBase st rn id i m false ∧
    WithMultiRemappedSnapshotView st rn id i m = withRemappedSnapshotBase st rn id i m true :=
  ⟨rfl, rfl, rfl, rfl⟩

end Containerd
